import Mathlib

/-!
Shallow embedding of `spectral_generator.py` (function `generate_spectra`).

Numeric values are modelled by `ℚ` (exact arithmetic standing in for the
floating-point arithmetic of numpy).  A numpy 1-D array is a size together
with a total entry function (entries outside the size are junk and never
observed); a 2-D array likewise carries its two dimensions.
The pseudo-random generator `numpy.random.RandomState(seed)` is modelled by
the stream of standard-normal variates it would emit, abstracted as a
function `ℕ → ℚ`, together with a position counter; the stream itself is a
parameter of the embedding (`prng : ℤ → ℕ → ℚ` for integer seeds, and an
`entropy : ℕ → ℚ` stream used when the seed is `none`, mirroring OS
seeding for `RandomState(None)`).  Likewise `np.sqrt` is an external
library function and enters as a parameter `np_sqrt : ℚ → ℚ`.

`rand.normal(loc, scale, size)` validates its arguments the way numpy does:
it raises `ValueError: scale < 0` for a negative scale and
`ValueError: negative dimensions are not allowed` for a negative size
entry; on success it fills the requested `(d0, d1)` array in C order,
entry `(i, j)` being `loc + scale * z` with `z` the next standard-normal
variate of the stream.  Elementwise `+` implements numpy broadcasting for
two 2-D operands (each dimension pair must be equal or contain a 1, the
result taking the maximum), `@` requires the inner dimensions to agree and
`np.vstack` requires equal column counts.
-/

/-- A numpy 1-D array: a length and a total entry function. -/
structure Arr1 where
  size : ℕ
  entry : ℕ → ℚ

/-- A numpy 2-D array: two dimensions and a total entry function. -/
structure Arr2 where
  rows : ℕ
  cols : ℕ
  entry : ℕ → ℕ → ℚ

/-- The kinds of `ValueError` that the numpy operations used by
`generate_spectra` can raise. -/
inductive NpError where
  /-- `ValueError: scale < 0` from `rand.normal`. -/
  | negativeScale : NpError
  /-- `ValueError: negative dimensions are not allowed` from `rand.normal`. -/
  | negativeDimensions : NpError
  /-- `ValueError: operands could not be broadcast together` from `+`. -/
  | broadcastMismatch : NpError
  /-- `ValueError: matmul mismatch in core dimension` from `@`. -/
  | matmulMismatch : NpError
  /-- `ValueError: all input array dimensions must match` from `np.vstack`. -/
  | concatMismatch : NpError
deriving DecidableEq, Repr

/-- The state of `numpy.random.RandomState`: the stream of standard-normal
variates it will emit, and how many have been consumed so far. -/
structure RNG where
  gauss : ℕ → ℚ
  pos : ℕ

/-- `rand.normal(loc, scale, (d0, d1))`: numpy parameter validation
(scale checked first, then the size entries), then a fresh `(d0, d1)`
array filled in C order from the stream.  Returns the array and the
advanced generator. -/
def RNG.normal2 (r : RNG) (loc scale : ℚ) (d0 d1 : ℤ) : Except NpError (Arr2 × RNG) :=
  if scale < 0 then .error .negativeScale
  else if d0 < 0 ∨ d1 < 0 then .error .negativeDimensions
  else
    .ok (⟨d0.toNat, d1.toNat, fun i j => loc + scale * r.gauss (r.pos + (i * d1.toNat + j))⟩,
         ⟨r.gauss, r.pos + d0.toNat * d1.toNat⟩)

/-- numpy transpose `.T` of a 2-D array. -/
def Arr2.T (a : Arr2) : Arr2 :=
  ⟨a.cols, a.rows, fun i j => a.entry j i⟩

/-- `np.tile(mu, (n, 1))` for a 1-D `mu`: `n` copies of `mu` as rows. -/
def np_tile (mu : Arr1) (n : ℕ) : Arr2 :=
  ⟨n, mu.size, fun _ j => mu.entry j⟩

/-- numpy `@` on 2-D arrays: inner dimensions must agree. -/
def Arr2.matmul (a b : Arr2) : Except NpError Arr2 :=
  if a.cols = b.rows then
    .ok ⟨a.rows, b.cols, fun i j => ∑ k ∈ Finset.range a.cols, a.entry i k * b.entry k j⟩
  else .error .matmulMismatch

/-- numpy elementwise `+` on two 2-D arrays with broadcasting: each
dimension pair must be equal or contain a 1; the result takes the larger
extent, and a size-1 dimension is read at index 0. -/
def Arr2.add (a b : Arr2) : Except NpError Arr2 :=
  if (a.rows = b.rows ∨ a.rows = 1 ∨ b.rows = 1) ∧ (a.cols = b.cols ∨ a.cols = 1 ∨ b.cols = 1) then
    .ok ⟨if a.rows = 1 then b.rows else a.rows, if a.cols = 1 then b.cols else a.cols, fun i j =>
      a.entry (if a.rows = 1 then 0 else i) (if a.cols = 1 then 0 else j) +
      b.entry (if b.rows = 1 then 0 else i) (if b.cols = 1 then 0 else j)⟩
  else .error .broadcastMismatch

/-- `np.vstack([a, b])` on 2-D arrays: column counts must agree. -/
def np_vstack (a b : Arr2) : Except NpError Arr2 :=
  if a.cols = b.cols then
    .ok ⟨a.rows + b.rows, a.cols, fun i j =>
      if i < a.rows then a.entry i j else b.entry (i - a.rows) j⟩
  else .error .concatMismatch

/-- `np.zeros(n)`. -/
def np_zeros (n : ℕ) : Arr1 := ⟨n, fun _ => 0⟩

/-- `np.ones(n)`. -/
def np_ones (n : ℕ) : Arr1 := ⟨n, fun _ => 1⟩

/-- `np.hstack([a, b])` on 1-D arrays. -/
def np_hstack1 (a b : Arr1) : Arr1 :=
  ⟨a.size + b.size, fun i => if i < a.size then a.entry i else b.entry (i - a.size)⟩

/-- The `beta_std_neg` / `beta_std_pos` argument: either the string
sentinel `auto` or a numeric standard deviation. -/
inductive BStd where
  | auto : BStd
  | val (q : ℚ) : BStd
deriving DecidableEq

/-- Resolution of a per-class standard deviation argument, as done by
lines 47-50 of the source: the `auto` sentinel becomes `1 / np.sqrt(m)` for the
calibration-vector count `m` of that class, a numeric value is kept. -/
def BStd.resolve (np_sqrt : ℚ → ℚ) : BStd → ℕ → ℚ
  | .auto, m => 1 / np_sqrt (m : ℚ)
  | .val q, _ => q

/-- The standard-normal stream of `np.random.RandomState(random_state)`:
an integer seed selects the stream the PRNG derives from that seed,
`None` falls back to OS entropy. -/
def seedStream (prng : ℤ → ℕ → ℚ) (entropy : ℕ → ℚ) : Option ℤ → ℕ → ℚ
  | some s => prng s
  | none => entropy

/-- The embedding of `generate_spectra` (lines 39-68 of
`spectral_generator.py`), line by line in source order.  `prng`,
`entropy` and `np_sqrt` model the external numpy facilities (see the
module docstring); the remaining parameters and their defaults mirror the
Python signature. -/
def generate_spectra (prng : ℤ → ℕ → ℚ) (entropy : ℕ → ℚ) (np_sqrt : ℚ → ℚ)
    (B_neg B_pos : Arr2) (mu_neg mu_pos : Arr1) (n_neg n_pos : ℤ)
    (beta_std_neg : BStd := .auto) (beta_std_pos : BStd := .auto)
    (epsilon_std : ℚ := 0) (random_state : Option ℤ := some 42) :
    Except NpError (Arr2 × Arr1) :=
  let rand : RNG := ⟨seedStream prng entropy random_state, 0⟩
  let m_neg := B_neg.rows
  let m_pos := B_pos.rows
  let bsn := beta_std_neg.resolve np_sqrt m_neg
  let bsp := beta_std_pos.resolve np_sqrt m_pos
  (rand.normal2 0 bsn (m_neg : ℤ) n_neg).bind fun br =>
  (br.2.normal2 0 bsp (m_pos : ℤ) n_pos).bind fun bp =>
  ((br.1.T).matmul B_neg).bind fun prodNeg =>
  ((np_tile mu_neg n_neg.toNat).add prodNeg).bind fun X_neg_gen =>
  ((bp.1.T).matmul B_pos).bind fun prodPos =>
  ((np_tile mu_pos n_pos.toNat).add prodPos).bind fun X_pos_gen =>
  (np_vstack X_neg_gen X_pos_gen).bind fun X_gen0 =>
  (bp.2.normal2 0 epsilon_std (X_gen0.rows : ℤ) (X_gen0.cols : ℤ)).bind fun nz =>
  (X_gen0.add nz.1).map fun X_gen =>
  (X_gen, np_hstack1 (np_zeros n_neg.toNat) (np_ones n_pos.toNat))

/-! ### Spec-side closed form

The following definitions are modelled from the words of the spec
(section 4.1, Algorithm): coefficient draws for the negative class first,
then the positive class, then one noise matrix for the stacked result,
each sample being the class mean plus the coefficient-weighted combination
of the calibration vectors of that class.  They give the closed form that
`generate_spectra` is proved to refine. -/

/-- Spec-side entry of a generated negative-class sample `i` at channel
`j`: mean plus coefficient-weighted calibration vectors, the negative
coefficient block occupying stream positions `[0, m_neg * nn)`. -/
def negEntry (g : ℕ → ℚ) (B_neg : Arr2) (mu_neg : Arr1) (nn : ℕ) (bsn : ℚ) (i j : ℕ) : ℚ :=
  mu_neg.entry j + ∑ k ∈ Finset.range B_neg.rows, bsn * g (k * nn + i) * B_neg.entry k j

/-- Spec-side entry of a generated positive-class sample: as `negEntry`,
with the positive coefficient block following the negative one in the
stream. -/
def posEntry (g : ℕ → ℚ) (B_neg B_pos : Arr2) (mu_pos : Arr1) (nn np2 : ℕ) (bsp : ℚ)
    (i j : ℕ) : ℚ :=
  mu_pos.entry j +
    ∑ k ∈ Finset.range B_pos.rows, bsp * g (B_neg.rows * nn + (k * np2 + (i - nn))) * B_pos.entry k j

/-- Spec-side entry of the single noise matrix, drawn after both
coefficient blocks, filled in C order over the stacked shape. -/
def noiseEntry (g : ℕ → ℚ) (B_neg B_pos : Arr2) (nn np2 p : ℕ) (eps : ℚ) (i j : ℕ) : ℚ :=
  eps * g (B_neg.rows * nn + B_pos.rows * np2 + (i * p + j))

/-- Spec-side generated feature matrix: negative block stacked above the
positive block, plus the noise matrix. -/
def specX (g : ℕ → ℚ) (B_neg B_pos : Arr2) (mu_neg mu_pos : Arr1) (nn np2 : ℕ)
    (bsn bsp eps : ℚ) : Arr2 :=
  ⟨nn + np2, B_neg.cols, fun i j =>
    (if i < nn then negEntry g B_neg mu_neg nn bsn i j
     else posEntry g B_neg B_pos mu_pos nn np2 bsp i j) +
    noiseEntry g B_neg B_pos nn np2 B_neg.cols eps i j⟩

/-- Spec-side label vector: `nn` zeros followed by `np2` ones. -/
def specY (nn np2 : ℕ) : Arr1 :=
  ⟨nn + np2, fun i => if i < nn then 0 else 1⟩

/-! ### Reduction lemmas for the array and generator operations -/

theorem exc_bind_ok {α β : Type} (a : α) (f : α → Except NpError β) :
    Except.bind (.ok a) f = f a := rfl

theorem exc_bind_err {α β : Type} (e : NpError) (f : α → Except NpError β) :
    Except.bind (.error e) f = (.error e : Except NpError β) := rfl

theorem exc_map_ok {α β : Type} (a : α) (f : α → β) :
    Except.map f (.ok a : Except NpError α) = .ok (f a) := rfl

theorem exc_map_err {α β : Type} (e : NpError) (f : α → β) :
    Except.map f (.error e : Except NpError α) = (.error e : Except NpError β) := rfl

theorem RNG.normal2_ok (r : RNG) (loc scale : ℚ) (d0 d1 : ℤ)
    (hs : 0 ≤ scale) (h0 : 0 ≤ d0) (h1 : 0 ≤ d1) :
    r.normal2 loc scale d0 d1 =
      .ok (⟨d0.toNat, d1.toNat, fun i j => loc + scale * r.gauss (r.pos + (i * d1.toNat + j))⟩,
           ⟨r.gauss, r.pos + d0.toNat * d1.toNat⟩) := by
  unfold RNG.normal2
  rw [if_neg (not_lt.2 hs), if_neg (by omega)]

theorem RNG.normal2_scale_err (r : RNG) (loc scale : ℚ) (d0 d1 : ℤ) (hs : scale < 0) :
    r.normal2 loc scale d0 d1 = .error .negativeScale := by
  unfold RNG.normal2
  rw [if_pos hs]

theorem RNG.normal2_dim_err (r : RNG) (loc scale : ℚ) (d0 d1 : ℤ)
    (hs : 0 ≤ scale) (hd : d0 < 0 ∨ d1 < 0) :
    r.normal2 loc scale d0 d1 = .error .negativeDimensions := by
  unfold RNG.normal2
  rw [if_neg (not_lt.2 hs), if_pos hd]

theorem Arr2.matmul_ok (a b : Arr2) (h : a.cols = b.rows) :
    a.matmul b =
      .ok ⟨a.rows, b.cols, fun i j => ∑ k ∈ Finset.range a.cols, a.entry i k * b.entry k j⟩ := by
  unfold Arr2.matmul
  rw [if_pos h]

theorem Arr2.add_ok (a b : Arr2)
    (h : (a.rows = b.rows ∨ a.rows = 1 ∨ b.rows = 1) ∧
         (a.cols = b.cols ∨ a.cols = 1 ∨ b.cols = 1)) :
    a.add b =
      .ok ⟨if a.rows = 1 then b.rows else a.rows, if a.cols = 1 then b.cols else a.cols, fun i j =>
        a.entry (if a.rows = 1 then 0 else i) (if a.cols = 1 then 0 else j) +
        b.entry (if b.rows = 1 then 0 else i) (if b.cols = 1 then 0 else j)⟩ := by
  unfold Arr2.add
  rw [if_pos h]

theorem Arr2.add_err (a b : Arr2)
    (h : ¬ ((a.rows = b.rows ∨ a.rows = 1 ∨ b.rows = 1) ∧
            (a.cols = b.cols ∨ a.cols = 1 ∨ b.cols = 1))) :
    a.add b = .error .broadcastMismatch := by
  unfold Arr2.add
  rw [if_neg h]

theorem np_vstack_ok (a b : Arr2) (h : a.cols = b.cols) :
    np_vstack a b =
      .ok ⟨a.rows + b.rows, a.cols, fun i j =>
        if i < a.rows then a.entry i j else b.entry (i - a.rows) j⟩ := by
  unfold np_vstack
  rw [if_pos h]

theorem np_vstack_err (a b : Arr2) (h : a.cols ≠ b.cols) :
    np_vstack a b = .error .concatMismatch := by
  unfold np_vstack
  rw [if_neg h]

theorem if_idx {r i : ℕ} (h : i < r) : (if r = 1 then 0 else i) = i := by
  split <;> omega

theorem int_natCast_not_neg (n : ℕ) : ¬ ((n : ℤ) < 0) := by omega

theorem generate_spectra_closed (prng : ℤ → ℕ → ℚ) (entropy : ℕ → ℚ) (np_sqrt : ℚ → ℚ)
    (B_neg B_pos : Arr2) (mu_neg mu_pos : Arr1) (n_neg n_pos : ℤ)
    (bstdn bstdp : BStd) (eps : ℚ) (rs : Option ℤ)
    (h1 : mu_neg.size = B_neg.cols) (h2 : mu_pos.size = B_pos.cols)
    (h3 : B_neg.cols = B_pos.cols)
    (h4 : 0 ≤ n_neg) (h5 : 0 ≤ n_pos)
    (h6 : 0 ≤ bstdn.resolve np_sqrt B_neg.rows) (h7 : 0 ≤ bstdp.resolve np_sqrt B_pos.rows)
    (h8 : 0 ≤ eps) :
    ∃ X y,
      generate_spectra prng entropy np_sqrt B_neg B_pos mu_neg mu_pos n_neg n_pos
          bstdn bstdp eps rs = .ok (X, y) ∧
      X.rows = n_neg.toNat + n_pos.toNat ∧ X.cols = B_neg.cols ∧
      (∀ i j, i < n_neg.toNat + n_pos.toNat → j < B_neg.cols →
        X.entry i j = (specX (seedStream prng entropy rs) B_neg B_pos mu_neg mu_pos
            n_neg.toNat n_pos.toNat (bstdn.resolve np_sqrt B_neg.rows)
            (bstdp.resolve np_sqrt B_pos.rows) eps).entry i j) ∧
      y.size = n_neg.toNat + n_pos.toNat ∧
      (∀ i, i < n_neg.toNat + n_pos.toNat →
        y.entry i = (specY n_neg.toNat n_pos.toNat).entry i) := by
  have e1 : ¬ (bstdn.resolve np_sqrt B_neg.rows < 0) := not_lt.2 h6
  have e2 : ¬ (bstdp.resolve np_sqrt B_pos.rows < 0) := not_lt.2 h7
  have e5 : ¬ (n_neg < 0) := not_lt.2 h4
  have e6 : ¬ (n_pos < 0) := not_lt.2 h5
  have e8 : ¬ (eps < 0) := not_lt.2 h8
  simp only [generate_spectra, RNG.normal2, Arr2.matmul, Arr2.add, np_vstack, Arr2.T, np_tile,
    exc_bind_ok, exc_map_ok, e1, e2, e5, e6, e8, int_natCast_not_neg, h1, h2, h3,
    Int.toNat_natCast, zero_add, ite_self, eq_self_iff_true, true_or, or_true, false_or,
    or_false, and_self, true_and, and_true, if_true, if_false, ite_true, ite_false,
    or_self, not_false_iff]
  refine ⟨_, _, rfl, rfl, rfl, ?_, rfl, ?_⟩
  · intro i j hi hj
    simp only [specX, negEntry, posEntry, noiseEntry, h3]
    rw [if_idx hi, if_idx hj, if_idx hj]
    by_cases hin : i < n_neg.toNat
    · rw [if_pos hin, if_pos hin, if_idx hin]
    · rw [if_neg hin, if_neg hin, if_idx (show i - n_neg.toNat < n_pos.toNat by omega)]
  · intro i hi
    simp only [np_hstack1, np_zeros, np_ones, specY]

/-! ### Observers and concrete fixtures -/

/-- Observer: the call returned a result (no exception). -/
def resultOk : Except NpError (Arr2 × Arr1) → Bool
  | .ok _ => true
  | .error _ => false

/-- Observer: the call failed with one of the invalid-parameter errors of
`rand.normal` (negative scale or negative dimensions), as opposed to a
shape or dimension-mismatch error. -/
def invalidParam : Except NpError (Arr2 × Arr1) → Bool
  | .error .negativeScale => true
  | .error .negativeDimensions => true
  | _ => false

/-- Observer: the top-left entry of a returned feature matrix. -/
def entry00 : Except NpError (Arr2 × Arr1) → ℚ
  | .ok xy => xy.1.entry 0 0
  | .error _ => 0

/-- Concrete stand-in for the library PRNG used by witnesses: every seed
yields the zero stream. -/
def cPrng : ℤ → ℕ → ℚ := fun _ _ => 0

/-- Concrete entropy stream used by witnesses. -/
def cEntropy : ℕ → ℚ := fun _ => 0

/-- Concrete stand-in for `np.sqrt` used by witnesses. -/
def cSqrt : ℚ → ℚ := fun q => q

/-- Concrete constant `m × p` calibration matrix for witnesses. -/
def cMat (m p : ℕ) (v : ℚ) : Arr2 := ⟨m, p, fun _ _ => v⟩

/-- Concrete constant length-`p` mean spectrum for witnesses. -/
def cVec (p : ℕ) (v : ℚ) : Arr1 := ⟨p, fun _ => v⟩

/-! ### Claims -/

/-- Claim C4: for fixed inputs and a fixed integer `random_state`, two
invocations of `generate_spectra` return identical results — in the
embedding, the result does not depend on the ambient OS entropy once an
integer seed is supplied, so any two invocations agree. -/
theorem generate_spectra_deterministic (prng : ℤ → ℕ → ℚ) (e1 e2 : ℕ → ℚ) (np_sqrt : ℚ → ℚ)
    (B_neg B_pos : Arr2) (mu_neg mu_pos : Arr1) (n_neg n_pos : ℤ)
    (bstdn bstdp : BStd) (eps : ℚ) (s : ℤ) :
    generate_spectra prng e1 np_sqrt B_neg B_pos mu_neg mu_pos n_neg n_pos
        bstdn bstdp eps (some s) =
      generate_spectra prng e2 np_sqrt B_neg B_pos mu_neg mu_pos n_neg n_pos
        bstdn bstdp eps (some s) := rfl

/-- Claim C6: a per-class standard deviation left at the automatic
sentinel behaves exactly as the explicit value `1 / np.sqrt(m)`, where `m`
is the row count of the calibration matrix of that class. -/
theorem generate_spectra_auto_std (prng : ℤ → ℕ → ℚ) (entropy : ℕ → ℚ) (np_sqrt : ℚ → ℚ)
    (B_neg B_pos : Arr2) (mu_neg mu_pos : Arr1) (n_neg n_pos : ℤ)
    (bstdn bstdp : BStd) (eps : ℚ) (rs : Option ℤ) :
    generate_spectra prng entropy np_sqrt B_neg B_pos mu_neg mu_pos n_neg n_pos
        .auto bstdp eps rs =
      generate_spectra prng entropy np_sqrt B_neg B_pos mu_neg mu_pos n_neg n_pos
        (.val (1 / np_sqrt (B_neg.rows : ℚ))) bstdp eps rs ∧
    generate_spectra prng entropy np_sqrt B_neg B_pos mu_neg mu_pos n_neg n_pos
        bstdn .auto eps rs =
      generate_spectra prng entropy np_sqrt B_neg B_pos mu_neg mu_pos n_neg n_pos
        bstdn (.val (1 / np_sqrt (B_pos.rows : ℚ))) eps rs :=
  ⟨rfl, rfl⟩

/-- Claim C10: the omitted `random_state` defaults to the fixed integer
42, so omitting it gives the seeded, entropy-independent behaviour, while
passing `none` (Python `None`) makes the output depend on the ambient
entropy — two entropy streams exist that produce different outputs. -/
theorem generate_spectra_default_seed (prng : ℤ → ℕ → ℚ) (e1 e2 : ℕ → ℚ) (np_sqrt : ℚ → ℚ)
    (B_neg B_pos : Arr2) (mu_neg mu_pos : Arr1) (n_neg n_pos : ℤ)
    (bstdn bstdp : BStd) (eps : ℚ) :
    (generate_spectra prng e1 np_sqrt B_neg B_pos mu_neg mu_pos n_neg n_pos bstdn bstdp eps =
      generate_spectra prng e1 np_sqrt B_neg B_pos mu_neg mu_pos n_neg n_pos bstdn bstdp eps
        (some 42)) ∧
    (generate_spectra prng e1 np_sqrt B_neg B_pos mu_neg mu_pos n_neg n_pos bstdn bstdp eps =
      generate_spectra prng e2 np_sqrt B_neg B_pos mu_neg mu_pos n_neg n_pos bstdn bstdp eps) ∧
    (∃ ent1 ent2 : ℕ → ℚ,
      generate_spectra cPrng ent1 cSqrt (cMat 1 1 1) (cMat 1 1 1) (cVec 1 0) (cVec 1 0)
          1 0 (.val 1) (.val 1) 0 none ≠
        generate_spectra cPrng ent2 cSqrt (cMat 1 1 1) (cMat 1 1 1) (cVec 1 0) (cVec 1 0)
          1 0 (.val 1) (.val 1) 0 none) := by
  refine ⟨rfl, rfl, fun _ => 0, fun _ => 1, fun h => ?_⟩
  obtain ⟨X1, y1, hok1, _, _, hent1, _, _⟩ :=
    generate_spectra_closed cPrng (fun _ => 0) cSqrt (cMat 1 1 1) (cMat 1 1 1)
      (cVec 1 0) (cVec 1 0) 1 0 (.val 1) (.val 1) 0 none rfl rfl rfl
      (by norm_num) (by norm_num) ((by norm_num : (0:ℚ) ≤ 1)) ((by norm_num : (0:ℚ) ≤ 1)) le_rfl
  obtain ⟨X2, y2, hok2, _, _, hent2, _, _⟩ :=
    generate_spectra_closed cPrng (fun _ => 1) cSqrt (cMat 1 1 1) (cMat 1 1 1)
      (cVec 1 0) (cVec 1 0) 1 0 (.val 1) (.val 1) 0 none rfl rfl rfl
      (by norm_num) (by norm_num) ((by norm_num : (0:ℚ) ≤ 1)) ((by norm_num : (0:ℚ) ≤ 1)) le_rfl
  rw [hok1, hok2] at h
  injection h with hpair
  have hX : X1 = X2 := congrArg Prod.fst hpair
  have e1 := hent1 0 0 (by decide) (by decide)
  have e2 := hent2 0 0 (by decide) (by decide)
  rw [hX, e2] at e1
  simp [specX, negEntry, noiseEntry, seedStream, cMat, cVec, BStd.resolve,
    Finset.sum_range_one] at e1

/-- Claim C1: for every valid input, `generate_spectra` computes each
class block as the class mean broadcast over that class's row count plus
the (n_class, m_class) coefficient matrix times the calibration matrix,
adds one noise matrix to the stacked result, and takes all draws from the
one generator seeded by `random_state` in the fixed order negative
coefficients, positive coefficients, noise — i.e. it refines the
spec-side closed form `specX` / `specY` with the coefficient and noise
blocks occupying consecutive stream positions in that order. -/
theorem generate_spectra_refines_spec (prng : ℤ → ℕ → ℚ) (entropy : ℕ → ℚ) (np_sqrt : ℚ → ℚ)
    (B_neg B_pos : Arr2) (mu_neg mu_pos : Arr1) (n_neg n_pos : ℤ)
    (bstdn bstdp : BStd) (eps : ℚ) (rs : Option ℤ)
    (h1 : mu_neg.size = B_neg.cols) (h2 : mu_pos.size = B_pos.cols)
    (h3 : B_neg.cols = B_pos.cols)
    (h4 : 0 ≤ n_neg) (h5 : 0 ≤ n_pos)
    (h6 : 0 ≤ bstdn.resolve np_sqrt B_neg.rows) (h7 : 0 ≤ bstdp.resolve np_sqrt B_pos.rows)
    (h8 : 0 ≤ eps) :
    ∃ X y,
      generate_spectra prng entropy np_sqrt B_neg B_pos mu_neg mu_pos n_neg n_pos
          bstdn bstdp eps rs = .ok (X, y) ∧
      X.rows = n_neg.toNat + n_pos.toNat ∧ X.cols = B_neg.cols ∧
      (∀ i j, i < n_neg.toNat + n_pos.toNat → j < B_neg.cols →
        X.entry i j = (specX (seedStream prng entropy rs) B_neg B_pos mu_neg mu_pos
            n_neg.toNat n_pos.toNat (bstdn.resolve np_sqrt B_neg.rows)
            (bstdp.resolve np_sqrt B_pos.rows) eps).entry i j) ∧
      y.size = n_neg.toNat + n_pos.toNat ∧
      (∀ i, i < n_neg.toNat + n_pos.toNat →
        y.entry i = (specY n_neg.toNat n_pos.toNat).entry i) :=
  generate_spectra_closed prng entropy np_sqrt B_neg B_pos mu_neg mu_pos n_neg n_pos
    bstdn bstdp eps rs h1 h2 h3 h4 h5 h6 h7 h8

/-- Witness for C1 at a concrete valid input. -/
theorem generate_spectra_refines_spec_witness :
    ∃ X y,
      generate_spectra cPrng cEntropy cSqrt (cMat 1 2 1) (cMat 1 2 1) (cVec 2 0) (cVec 2 5)
          2 2 (.val 0) (.val 0) 0 (some 0) = .ok (X, y) ∧
      X.rows = (2 : ℤ).toNat + (2 : ℤ).toNat ∧ X.cols = (cMat 1 2 1).cols ∧
      (∀ i j, i < (2 : ℤ).toNat + (2 : ℤ).toNat → j < (cMat 1 2 1).cols →
        X.entry i j = (specX (seedStream cPrng cEntropy (some 0)) (cMat 1 2 1) (cMat 1 2 1)
            (cVec 2 0) (cVec 2 5) (2 : ℤ).toNat (2 : ℤ).toNat
            (BStd.resolve cSqrt (.val 0) (cMat 1 2 1).rows)
            (BStd.resolve cSqrt (.val 0) (cMat 1 2 1).rows) 0).entry i j) ∧
      y.size = (2 : ℤ).toNat + (2 : ℤ).toNat ∧
      (∀ i, i < (2 : ℤ).toNat + (2 : ℤ).toNat →
        y.entry i = (specY (2 : ℤ).toNat (2 : ℤ).toNat).entry i) :=
  generate_spectra_refines_spec cPrng cEntropy cSqrt (cMat 1 2 1) (cMat 1 2 1) (cVec 2 0)
    (cVec 2 5) 2 2 (.val 0) (.val 0) 0 (some 0) rfl rfl rfl (by decide) (by decide)
    le_rfl le_rfl le_rfl

/-- Claim C2: on every valid input where both calibration matrices have
`p` columns, the returned feature matrix has shape `(n_neg+n_pos, p)` and
the returned label vector has length `n_neg+n_pos`. -/
theorem generate_spectra_shape (prng : ℤ → ℕ → ℚ) (entropy : ℕ → ℚ) (np_sqrt : ℚ → ℚ)
    (B_neg B_pos : Arr2) (mu_neg mu_pos : Arr1) (n_neg n_pos : ℤ)
    (bstdn bstdp : BStd) (eps : ℚ) (rs : Option ℤ) (p : ℕ)
    (hpn : B_neg.cols = p) (hpp : B_pos.cols = p)
    (h1 : mu_neg.size = B_neg.cols) (h2 : mu_pos.size = B_pos.cols)
    (h4 : 0 ≤ n_neg) (h5 : 0 ≤ n_pos)
    (h6 : 0 ≤ bstdn.resolve np_sqrt B_neg.rows) (h7 : 0 ≤ bstdp.resolve np_sqrt B_pos.rows)
    (h8 : 0 ≤ eps) :
    ∃ X y,
      generate_spectra prng entropy np_sqrt B_neg B_pos mu_neg mu_pos n_neg n_pos
          bstdn bstdp eps rs = .ok (X, y) ∧
      X.rows = n_neg.toNat + n_pos.toNat ∧ X.cols = p ∧
      y.size = n_neg.toNat + n_pos.toNat := by
  obtain ⟨X, y, hok, hr, hc, _, hs, _⟩ := generate_spectra_closed prng entropy np_sqrt
    B_neg B_pos mu_neg mu_pos n_neg n_pos bstdn bstdp eps rs h1 h2 (hpn.trans hpp.symm)
    h4 h5 h6 h7 h8
  exact ⟨X, y, hok, hr, hc.trans hpn, hs⟩

/-- Witness for C2 at a concrete valid input. -/
theorem generate_spectra_shape_witness :
    ∃ X y,
      generate_spectra cPrng cEntropy cSqrt (cMat 1 3 1) (cMat 2 3 1) (cVec 3 0) (cVec 3 5)
          2 1 (.val 0) (.val 0) 0 (some 0) = .ok (X, y) ∧
      X.rows = (2 : ℤ).toNat + (1 : ℤ).toNat ∧ X.cols = 3 ∧
      y.size = (2 : ℤ).toNat + (1 : ℤ).toNat :=
  generate_spectra_shape cPrng cEntropy cSqrt (cMat 1 3 1) (cMat 2 3 1) (cVec 3 0) (cVec 3 5)
    2 1 (.val 0) (.val 0) 0 (some 0) 3 rfl rfl rfl rfl (by decide) (by decide)
    le_rfl le_rfl le_rfl

/-- Claim C3: on every valid input the first `n_neg` rows of the feature
matrix are the negative-class samples and the next `n_pos` rows the
positive-class ones, and the label vector is exactly `n_neg` zeros
followed by `n_pos` ones, aligned with that row order. -/
theorem generate_spectra_block_order (prng : ℤ → ℕ → ℚ) (entropy : ℕ → ℚ) (np_sqrt : ℚ → ℚ)
    (B_neg B_pos : Arr2) (mu_neg mu_pos : Arr1) (n_neg n_pos : ℤ)
    (bstdn bstdp : BStd) (eps : ℚ) (rs : Option ℤ)
    (h1 : mu_neg.size = B_neg.cols) (h2 : mu_pos.size = B_pos.cols)
    (h3 : B_neg.cols = B_pos.cols)
    (h4 : 0 ≤ n_neg) (h5 : 0 ≤ n_pos)
    (h6 : 0 ≤ bstdn.resolve np_sqrt B_neg.rows) (h7 : 0 ≤ bstdp.resolve np_sqrt B_pos.rows)
    (h8 : 0 ≤ eps) :
    ∃ X y,
      generate_spectra prng entropy np_sqrt B_neg B_pos mu_neg mu_pos n_neg n_pos
          bstdn bstdp eps rs = .ok (X, y) ∧
      X.rows = n_neg.toNat + n_pos.toNat ∧
      y.size = n_neg.toNat + n_pos.toNat ∧
      (∀ i, i < n_neg.toNat → y.entry i = 0) ∧
      (∀ i, n_neg.toNat ≤ i → i < n_neg.toNat + n_pos.toNat → y.entry i = 1) ∧
      (∀ i j, i < n_neg.toNat → j < B_neg.cols →
        X.entry i j = negEntry (seedStream prng entropy rs) B_neg mu_neg n_neg.toNat
            (bstdn.resolve np_sqrt B_neg.rows) i j +
          noiseEntry (seedStream prng entropy rs) B_neg B_pos n_neg.toNat n_pos.toNat
            B_neg.cols eps i j) ∧
      (∀ i j, n_neg.toNat ≤ i → i < n_neg.toNat + n_pos.toNat → j < B_neg.cols →
        X.entry i j = posEntry (seedStream prng entropy rs) B_neg B_pos mu_pos n_neg.toNat
            n_pos.toNat (bstdp.resolve np_sqrt B_pos.rows) i j +
          noiseEntry (seedStream prng entropy rs) B_neg B_pos n_neg.toNat n_pos.toNat
            B_neg.cols eps i j) := by
  obtain ⟨X, y, hok, hr, hc, hent, hs, hy⟩ := generate_spectra_closed prng entropy np_sqrt
    B_neg B_pos mu_neg mu_pos n_neg n_pos bstdn bstdp eps rs h1 h2 h3 h4 h5 h6 h7 h8
  refine ⟨X, y, hok, hr, hs, ?_, ?_, ?_, ?_⟩
  · intro i hi
    rw [hy i (by omega)]
    simp only [specY]
    rw [if_pos hi]
  · intro i hge hi
    rw [hy i hi]
    simp only [specY]
    rw [if_neg (by omega)]
  · intro i j hi hj
    rw [hent i j (by omega) hj]
    simp only [specX]
    rw [if_pos hi]
  · intro i j hge hi hj
    rw [hent i j hi hj]
    simp only [specX]
    rw [if_neg (by omega)]

/-- Witness for C3 at a concrete valid input. -/
theorem generate_spectra_block_order_witness :
    ∃ X y,
      generate_spectra cPrng cEntropy cSqrt (cMat 1 2 1) (cMat 1 2 1) (cVec 2 0) (cVec 2 5)
          1 1 (.val 0) (.val 0) 0 (some 0) = .ok (X, y) ∧
      X.rows = (1 : ℤ).toNat + (1 : ℤ).toNat ∧
      y.size = (1 : ℤ).toNat + (1 : ℤ).toNat ∧
      (∀ i, i < (1 : ℤ).toNat → y.entry i = 0) ∧
      (∀ i, (1 : ℤ).toNat ≤ i → i < (1 : ℤ).toNat + (1 : ℤ).toNat → y.entry i = 1) ∧
      (∀ i j, i < (1 : ℤ).toNat → j < (cMat 1 2 1).cols →
        X.entry i j = negEntry (seedStream cPrng cEntropy (some 0)) (cMat 1 2 1) (cVec 2 0)
            (1 : ℤ).toNat (BStd.resolve cSqrt (.val 0) (cMat 1 2 1).rows) i j +
          noiseEntry (seedStream cPrng cEntropy (some 0)) (cMat 1 2 1) (cMat 1 2 1)
            (1 : ℤ).toNat (1 : ℤ).toNat (cMat 1 2 1).cols 0 i j) ∧
      (∀ i j, (1 : ℤ).toNat ≤ i → i < (1 : ℤ).toNat + (1 : ℤ).toNat → j < (cMat 1 2 1).cols →
        X.entry i j = posEntry (seedStream cPrng cEntropy (some 0)) (cMat 1 2 1) (cMat 1 2 1)
            (cVec 2 5) (1 : ℤ).toNat (1 : ℤ).toNat
            (BStd.resolve cSqrt (.val 0) (cMat 1 2 1).rows) i j +
          noiseEntry (seedStream cPrng cEntropy (some 0)) (cMat 1 2 1) (cMat 1 2 1)
            (1 : ℤ).toNat (1 : ℤ).toNat (cMat 1 2 1).cols 0 i j) :=
  generate_spectra_block_order cPrng cEntropy cSqrt (cMat 1 2 1) (cMat 1 2 1) (cVec 2 0)
    (cVec 2 5) 1 1 (.val 0) (.val 0) 0 (some 0) rfl rfl rfl (by decide) (by decide)
    le_rfl le_rfl le_rfl

/-- Claim C5: with both per-class coefficient standard deviations and the
noise standard deviation equal to zero, every generated negative-class
row equals `mu_neg` exactly and every positive-class row equals `mu_pos`
exactly. -/
theorem generate_spectra_zero_variance (prng : ℤ → ℕ → ℚ) (entropy : ℕ → ℚ) (np_sqrt : ℚ → ℚ)
    (B_neg B_pos : Arr2) (mu_neg mu_pos : Arr1) (n_neg n_pos : ℤ) (rs : Option ℤ)
    (h1 : mu_neg.size = B_neg.cols) (h2 : mu_pos.size = B_pos.cols)
    (h3 : B_neg.cols = B_pos.cols)
    (h4 : 0 ≤ n_neg) (h5 : 0 ≤ n_pos) :
    ∃ X y,
      generate_spectra prng entropy np_sqrt B_neg B_pos mu_neg mu_pos n_neg n_pos
          (.val 0) (.val 0) 0 rs = .ok (X, y) ∧
      (∀ i j, i < n_neg.toNat → j < B_neg.cols → X.entry i j = mu_neg.entry j) ∧
      (∀ i j, n_neg.toNat ≤ i → i < n_neg.toNat + n_pos.toNat → j < B_neg.cols →
        X.entry i j = mu_pos.entry j) := by
  obtain ⟨X, y, hok, hr, hc, hent, hs, hy⟩ := generate_spectra_closed prng entropy np_sqrt
    B_neg B_pos mu_neg mu_pos n_neg n_pos (.val 0) (.val 0) 0 rs h1 h2 h3 h4 h5
    le_rfl le_rfl le_rfl
  refine ⟨X, y, hok, ?_, ?_⟩
  · intro i j hi hj
    rw [hent i j (by omega) hj]
    simp only [specX]
    rw [if_pos hi]
    simp [negEntry, noiseEntry, BStd.resolve]
  · intro i j hge hi hj
    rw [hent i j hi hj]
    simp only [specX]
    rw [if_neg (show ¬ i < n_neg.toNat by omega)]
    simp [posEntry, noiseEntry, BStd.resolve]

/-- Witness for C5 at a concrete valid input. -/
theorem generate_spectra_zero_variance_witness :
    ∃ X y,
      generate_spectra cPrng cEntropy cSqrt (cMat 1 2 1) (cMat 1 2 1) (cVec 2 0) (cVec 2 5)
          2 2 (.val 0) (.val 0) 0 (some 7) = .ok (X, y) ∧
      (∀ i j, i < (2 : ℤ).toNat → j < (cMat 1 2 1).cols → X.entry i j = (cVec 2 0).entry j) ∧
      (∀ i j, (2 : ℤ).toNat ≤ i → i < (2 : ℤ).toNat + (2 : ℤ).toNat → j < (cMat 1 2 1).cols →
        X.entry i j = (cVec 2 5).entry j) :=
  generate_spectra_zero_variance cPrng cEntropy cSqrt (cMat 1 2 1) (cMat 1 2 1) (cVec 2 0)
    (cVec 2 5) 2 2 (some 7) rfl rfl rfl (by decide) (by decide)

/-- Counterexample to claim C7 as stated: `mu_neg` has length 1 while
`B_neg` has 2 columns — a dimension mismatch — yet the call returns a
result, because numpy broadcasting silently expands the size-1 dimension
instead of raising. -/
theorem generate_spectra_mismatch_no_error_cex :
    (cVec 1 0).size ≠ (cMat 1 2 1).cols ∧
    resultOk (generate_spectra cPrng cEntropy cSqrt (cMat 1 2 1) (cMat 1 2 1)
      (cVec 1 0) (cVec 2 0) 1 1 (.val 0) (.val 0) 0 (some 0)) = true :=
  ⟨by decide, rfl⟩

/-- Claim C7 as amended: with well-formed counts and standard deviations,
a per-class column-count mismatch raises the broadcast dimension error
whenever it is not broadcastable (neither the mean length nor the
calibration column count is 1), and equal-width classes whose two widths
disagree raise the stacking dimension error; a size-1 mismatch is instead
silently broadcast. -/
theorem generate_spectra_dim_mismatch_amended (prng : ℤ → ℕ → ℚ) (entropy : ℕ → ℚ)
    (np_sqrt : ℚ → ℚ) (B_neg B_pos : Arr2) (mu_neg mu_pos : Arr1) (n_neg n_pos : ℤ)
    (bstdn bstdp : BStd) (eps : ℚ) (rs : Option ℤ)
    (h4 : 0 ≤ n_neg) (h5 : 0 ≤ n_pos)
    (h6 : 0 ≤ bstdn.resolve np_sqrt B_neg.rows) (h7 : 0 ≤ bstdp.resolve np_sqrt B_pos.rows) :
    (mu_neg.size ≠ B_neg.cols → mu_neg.size ≠ 1 → B_neg.cols ≠ 1 →
      generate_spectra prng entropy np_sqrt B_neg B_pos mu_neg mu_pos n_neg n_pos
        bstdn bstdp eps rs = .error .broadcastMismatch) ∧
    (mu_neg.size = B_neg.cols → mu_pos.size ≠ B_pos.cols → mu_pos.size ≠ 1 → B_pos.cols ≠ 1 →
      generate_spectra prng entropy np_sqrt B_neg B_pos mu_neg mu_pos n_neg n_pos
        bstdn bstdp eps rs = .error .broadcastMismatch) ∧
    (mu_neg.size = B_neg.cols → mu_pos.size = B_pos.cols → B_neg.cols ≠ B_pos.cols →
      generate_spectra prng entropy np_sqrt B_neg B_pos mu_neg mu_pos n_neg n_pos
        bstdn bstdp eps rs = .error .concatMismatch) := by
  have e1 : ¬ (bstdn.resolve np_sqrt B_neg.rows < 0) := not_lt.2 h6
  have e2 : ¬ (bstdp.resolve np_sqrt B_pos.rows < 0) := not_lt.2 h7
  have e5 : ¬ (n_neg < 0) := not_lt.2 h4
  have e6 : ¬ (n_pos < 0) := not_lt.2 h5
  refine ⟨?_, ?_, ?_⟩
  · intro hm1 hm2 hm3
    simp only [generate_spectra, RNG.normal2, Arr2.matmul, Arr2.add, np_vstack, Arr2.T, np_tile,
      exc_bind_ok, exc_bind_err, exc_map_ok, exc_map_err, e1, e2, e5, e6, int_natCast_not_neg,
      Int.toNat_natCast, zero_add, ite_self, eq_self_iff_true, true_or, or_true, false_or,
      or_false, and_self, true_and, and_true, if_true, if_false, ite_true, ite_false, or_self,
      not_false_iff, hm1, hm2, hm3, and_false, false_and]
  · intro hq1 hm1 hm2 hm3
    simp only [generate_spectra, RNG.normal2, Arr2.matmul, Arr2.add, np_vstack, Arr2.T, np_tile,
      exc_bind_ok, exc_bind_err, exc_map_ok, exc_map_err, e1, e2, e5, e6, int_natCast_not_neg,
      Int.toNat_natCast, zero_add, ite_self, eq_self_iff_true, true_or, or_true, false_or,
      or_false, and_self, true_and, and_true, if_true, if_false, ite_true, ite_false, or_self,
      not_false_iff, hq1, hm1, hm2, hm3, and_false, false_and]
  · intro hq1 hq2 hne
    simp only [generate_spectra, RNG.normal2, Arr2.matmul, Arr2.add, np_vstack, Arr2.T, np_tile,
      exc_bind_ok, exc_bind_err, exc_map_ok, exc_map_err, e1, e2, e5, e6, int_natCast_not_neg,
      Int.toNat_natCast, zero_add, ite_self, eq_self_iff_true, true_or, or_true, false_or,
      or_false, and_self, true_and, and_true, if_true, if_false, ite_true, ite_false, or_self,
      not_false_iff, hq1, hq2, hne, and_false, false_and]

/-- Witness for the amended C7 at concrete mismatched inputs. -/
theorem generate_spectra_dim_mismatch_amended_witness :
    generate_spectra cPrng cEntropy cSqrt (cMat 1 2 1) (cMat 1 2 1) (cVec 3 0) (cVec 2 0)
        1 1 (.val 0) (.val 0) 0 (some 0) = .error .broadcastMismatch ∧
    generate_spectra cPrng cEntropy cSqrt (cMat 1 2 1) (cMat 1 3 1) (cVec 2 0) (cVec 3 0)
        1 1 (.val 0) (.val 0) 0 (some 0) = .error .concatMismatch :=
  ⟨(generate_spectra_dim_mismatch_amended cPrng cEntropy cSqrt (cMat 1 2 1) (cMat 1 2 1)
      (cVec 3 0) (cVec 2 0) 1 1 (.val 0) (.val 0) 0 (some 0) (by decide) (by decide)
      le_rfl le_rfl).1 (by decide) (by decide) (by decide),
   (generate_spectra_dim_mismatch_amended cPrng cEntropy cSqrt (cMat 1 2 1) (cMat 1 3 1)
      (cVec 2 0) (cVec 3 0) 1 1 (.val 0) (.val 0) 0 (some 0) (by decide) (by decide)
      le_rfl le_rfl).2.2 (by decide) (by decide) (by decide)⟩

/-- Counterexample to claim C8 as stated: with a negative `epsilon_std`
and a (non-broadcastable) dimension mismatch, the call fails with the
broadcast dimension-mismatch error raised at the per-class addition — the
noise draw that would reject the negative scale is never reached, so no
invalid-parameter error is produced. -/
theorem generate_spectra_negative_eps_dim_cex :
    ((-1 : ℚ) < 0) ∧
    generate_spectra cPrng cEntropy cSqrt (cMat 1 2 1) (cMat 1 2 1) (cVec 3 0) (cVec 2 0)
        1 1 (.val 0) (.val 0) (-1) (some 0) = .error .broadcastMismatch ∧
    invalidParam (generate_spectra cPrng cEntropy cSqrt (cMat 1 2 1) (cMat 1 2 1) (cVec 3 0)
      (cVec 2 0) 1 1 (.val 0) (.val 0) (-1) (some 0)) = false :=
  ⟨by norm_num, rfl, rfl⟩

/-- Claim C8 as amended: a negative `n_neg` or `n_pos` or a negative
per-class coefficient standard deviation always yields the
invalid-parameter error of `rand.normal`; a negative `epsilon_std` yields
it whenever the array dimensions are otherwise consistent (with a
simultaneous dimension mismatch, the mismatch error is raised first). -/
theorem generate_spectra_invalid_param_amended (prng : ℤ → ℕ → ℚ) (entropy : ℕ → ℚ)
    (np_sqrt : ℚ → ℚ) (B_neg B_pos : Arr2) (mu_neg mu_pos : Arr1) (n_neg n_pos : ℤ)
    (bstdn bstdp : BStd) (eps : ℚ) (rs : Option ℤ)
    (h : n_neg < 0 ∨ n_pos < 0 ∨ bstdn.resolve np_sqrt B_neg.rows < 0 ∨
         bstdp.resolve np_sqrt B_pos.rows < 0 ∨
         (eps < 0 ∧ mu_neg.size = B_neg.cols ∧ mu_pos.size = B_pos.cols ∧
          B_neg.cols = B_pos.cols ∧ 0 ≤ n_neg ∧ 0 ≤ n_pos ∧
          0 ≤ bstdn.resolve np_sqrt B_neg.rows ∧ 0 ≤ bstdp.resolve np_sqrt B_pos.rows)) :
    invalidParam (generate_spectra prng entropy np_sqrt B_neg B_pos mu_neg mu_pos n_neg n_pos
      bstdn bstdp eps rs) = true := by
  by_cases hb1 : bstdn.resolve np_sqrt B_neg.rows < 0
  · simp only [generate_spectra, RNG.normal2, exc_bind_err, exc_map_err, hb1, if_true,
      ite_true, invalidParam]
  by_cases hn1 : n_neg < 0
  · simp only [generate_spectra, RNG.normal2, exc_bind_err, exc_map_err, hb1, hn1,
      int_natCast_not_neg, false_or, or_true, if_true, if_false, ite_true, ite_false,
      invalidParam]
  by_cases hb2 : bstdp.resolve np_sqrt B_pos.rows < 0
  · simp only [generate_spectra, RNG.normal2, exc_bind_ok, exc_bind_err, exc_map_err, hb1,
      hn1, hb2, int_natCast_not_neg, false_or, or_self, or_false, if_true, if_false,
      ite_true, ite_false, invalidParam]
  by_cases hn2 : n_pos < 0
  · simp only [generate_spectra, RNG.normal2, exc_bind_ok, exc_bind_err, exc_map_err, hb1,
      hn1, hb2, hn2, int_natCast_not_neg, false_or, or_true, or_self, or_false, if_true,
      if_false, ite_true, ite_false, invalidParam]
  rcases h with h | h | h | h | ⟨heps, hq1, hq2, hq3, _, _, _, _⟩
  · exact absurd h hn1
  · exact absurd h hn2
  · exact absurd h hb1
  · exact absurd h hb2
  · simp only [generate_spectra, RNG.normal2, Arr2.matmul, Arr2.add, np_vstack, Arr2.T,
      np_tile, exc_bind_ok, exc_bind_err, exc_map_ok, exc_map_err, hb1, hb2, hn1, hn2, heps,
      hq1, hq2, hq3, int_natCast_not_neg, Int.toNat_natCast, zero_add, ite_self,
      eq_self_iff_true, true_or, or_true, false_or, or_false, and_self, true_and, and_true,
      if_true, if_false, ite_true, ite_false, or_self, not_false_iff, invalidParam]

/-- Witness for the amended C8 at a concrete input with a negative
requested count. -/
theorem generate_spectra_invalid_param_amended_witness :
    invalidParam (generate_spectra cPrng cEntropy cSqrt (cMat 1 2 1) (cMat 1 2 1) (cVec 2 0)
      (cVec 2 0) (-1) 1 (.val 0) (.val 0) 0 (some 0)) = true :=
  generate_spectra_invalid_param_amended cPrng cEntropy cSqrt (cMat 1 2 1) (cMat 1 2 1)
    (cVec 2 0) (cVec 2 0) (-1) 1 (.val 0) (.val 0) 0 (some 0) (Or.inl (by decide))
